import Mathlib

/-!
Verification of the geocode cache-aside resolver and its HTTP surface
(repository: a small axum weather service, single file `src/main.rs`).

The Rust source is shallowly embedded here:

* Database state (the Postgres `cities` table, columns `id, name, lat, long`
  with `id` an insertion-order serial key) is an explicit `CitiesTable` value,
  threaded through each operation.
* The two sqlx calls inside `get_lat_long` (the SELECT and the INSERT) and the
  outbound HTTP calls are fallible; failure of a database call is injected by
  an explicit `Option String` parameter (`none` = the call succeeds, `some e` =
  the call fails with error message `e`, mirroring the `?` propagation of
  `sqlx::Error` through `anyhow`), and the network is an explicit oracle
  function from the request to an `Except` result.
* `f64` coordinate values are modelled as `Rat`: the program performs no
  floating-point arithmetic on them (they are only deserialized, stored,
  compared by the database, and printed), so only their identity matters.
* Each embedded operation also returns the list of external calls it made
  (`Event` trace), so that "zero provider calls" / "zero store writes" claims
  are statements about the trace.
-/

deriving instance DecidableEq for Except

/-- Coordinate pair, Rust struct `LatLong { latitude: f64, longitude: f64 }`. -/
structure LatLong where
  latitude : Rat
  longitude : Rat
deriving DecidableEq, Repr

/-- One row of the `cities` table: serial `id`, `name`, `lat`, `long`. -/
structure CityRow where
  id : Nat
  name : String
  lat : Rat
  long : Rat
deriving DecidableEq, Repr

/-- The `cities` table: rows in physical insertion order, plus the next value
of the serial `id` column. -/
structure CitiesTable where
  rows : List CityRow
  nextId : Nat
deriving DecidableEq, Repr

def CitiesTable.empty : CitiesTable := ⟨[], 0⟩

/-- Embeds `SELECT lat AS latitude, long AS longitude FROM cities WHERE name = $1`
with `fetch_optional`: the first row whose `name` matches, if any. -/
def selectCity (t : CitiesTable) (name : String) : Option LatLong :=
  (t.rows.find? (fun r => r.name == name)).map (fun r => ⟨r.lat, r.long⟩)

/-- Embeds `INSERT INTO cities (name, lat, long) VALUES ($1, $2, $3)`:
appends a fresh row with the next serial id. -/
def insertCity (t : CitiesTable) (name : String) (c : LatLong) : CitiesTable :=
  ⟨t.rows ++ [⟨t.nextId, name, c.latitude, c.longitude⟩], t.nextId + 1⟩

/-- Rust struct `GeoResponse { results: Vec<LatLong> }`, the parsed body of the
geocoding call. -/
structure GeoResponse where
  results : List LatLong
deriving DecidableEq, Repr

/-- Errors that `get_lat_long` / `fetch_lat_long` / `fetch_weather` can return
(`anyhow::Error` values, distinguished by their source):
`db` is a propagated `sqlx::Error`, `net` a propagated `reqwest` error, and
`noResults` the `context("No results found")` error attached to an empty
`results` array. -/
inductive AppErr where
  | db (msg : String)
  | net (msg : String)
  | noResults
deriving DecidableEq, Repr

/-- External calls made during a request, in order. -/
inductive Event where
  | storeGet (name : String)
  | providerCall (name : String)
  | storeInsert (name : String) (c : LatLong)
  | weatherFetch (c : LatLong)
deriving DecidableEq, Repr

/-- Embeds `fetch_lat_long`: one geocoding HTTP request (`geo` is the network
oracle for the endpoint keyed by the city name), then
`response.results.get(0).cloned().context("No results found")`. -/
def fetch_lat_long (geo : String → Except String GeoResponse) (city : String) :
    Except AppErr LatLong :=
  match geo city with
  | .error e => .error (.net e)
  | .ok resp =>
    match resp.results.get? 0 with
    | some c => .ok c
    | none => .error .noResults

/-- Result of one `get_lat_long` invocation: the returned value, the table
afterwards, and the trace of external calls. -/
structure ResolveOutcome where
  result : Except AppErr LatLong
  table : CitiesTable
  events : List Event
deriving DecidableEq, Repr

/-- Embeds `get_lat_long(pool, name)`:
1. run the SELECT (fails iff `getFail = some e`, propagated by `?`);
2. on a row, return it;
3. otherwise `fetch_lat_long(name)?`;
4. then run the INSERT (fails iff `insFail = some e`, propagated by `?`);
5. return the fetched coordinate. -/
def get_lat_long (t : CitiesTable) (getFail insFail : Option String)
    (geo : String → Except String GeoResponse) (name : String) : ResolveOutcome :=
  match getFail with
  | some e => ⟨.error (.db e), t, [.storeGet name]⟩
  | none =>
    match selectCity t name with
    | some c => ⟨.ok c, t, [.storeGet name]⟩
    | none =>
      match fetch_lat_long geo name with
      | .error e => ⟨.error e, t, [.storeGet name, .providerCall name]⟩
      | .ok c =>
        match insFail with
        | some e =>
          ⟨.error (.db e), t, [.storeGet name, .providerCall name, .storeInsert name c]⟩
        | none =>
          ⟨.ok c, insertCity t name c,
            [.storeGet name, .providerCall name, .storeInsert name c]⟩

/-- Insertion step of the embedding of `ORDER BY id DESC`: place a row into a
list sorted by descending id. -/
def insertDescById (r : CityRow) : List CityRow → List CityRow
  | [] => [r]
  | x :: xs => if x.id ≤ r.id then r :: x :: xs else x :: insertDescById r xs

/-- Embeds `ORDER BY id DESC`: sort rows by descending id. -/
def sortByIdDesc (l : List CityRow) : List CityRow := l.foldr insertDescById []

/-- Embeds `get_last_cities`:
`SELECT name FROM cities ORDER BY id DESC LIMIT 10`. -/
def get_last_cities (t : CitiesTable) : List String :=
  ((sortByIdDesc t.rows).take 10).map (fun r => r.name)

/-- Ids strictly ascend along the physical row order. This holds for every
table reachable from `CitiesTable.empty` by `insertCity`, since each insert
appends a row carrying the strictly increasing serial id. -/
def TableWf (t : CitiesTable) : Prop :=
  t.rows.Pairwise (fun a b => a.id < b.id)

/-- Geocoding oracle used for the concrete recency example. -/
def abcGeo : String → Except String GeoResponse := fun _ => .ok ⟨[⟨3, 4⟩]⟩

/-- Table reached by resolving "A", then "B", then "C" (each a first-time
miss) starting from the empty table. -/
def abcTable : CitiesTable :=
  (get_lat_long (get_lat_long (get_lat_long CitiesTable.empty
      none none abcGeo "A").table none none abcGeo "B").table
      none none abcGeo "C").table

/-- Rust struct `Hourly { time: Vec<String>, temperature_2m: Vec<f64> }`. -/
structure Hourly where
  time : List String
  temperature_2m : List Rat
deriving DecidableEq, Repr

/-- Rust struct `WeatherResponse`. -/
structure WeatherResponse where
  latitude : Rat
  longitude : Rat
  timezone : String
  hourly : Hourly
deriving DecidableEq, Repr

/-- Rust struct `Forecast { date: String, temperature: String }`. -/
structure Forecast where
  date : String
  temperature : String
deriving DecidableEq, Repr

/-- Rust struct `WeatherDisplay { city: String, forecasts: Vec<Forecast> }`. -/
structure WeatherDisplay where
  city : String
  forecasts : List Forecast
deriving DecidableEq, Repr

/-- Embeds `WeatherDisplay::new`: zip the hourly times with the temperatures
and render each pair. `render` abstracts Rust's `f64::to_string` decimal
formatting (the embedding performs no floating-point arithmetic, so the
formatter is an opaque parameter). -/
def WeatherDisplay.new (render : Rat → String) (city : String)
    (response : WeatherResponse) : WeatherDisplay :=
  ⟨city,
    (response.hourly.time.zip response.hourly.temperature_2m).map
      (fun p => ⟨p.1, render p.2⟩)⟩

/-- Embeds `fetch_weather`: one forecast HTTP request, keyed by the
coordinate. -/
def fetch_weather (wapi : LatLong → Except String WeatherResponse)
    (c : LatLong) : Except AppErr WeatherResponse :=
  match wapi c with
  | .error e => .error (.net e)
  | .ok r => .ok r

/-- Result of one `weather` route invocation. -/
structure HandlerOutcome where
  result : Except AppErr WeatherDisplay
  table : CitiesTable
  events : List Event
deriving DecidableEq, Repr

/-- Embeds the `weather` route handler, faithfully to the source: although the
handler extracts the database pool from axum state (the `t` parameter here),
it never touches it — it calls `fetch_lat_long` directly instead of
`get_lat_long`, then `fetch_weather`, then `WeatherDisplay::new`. -/
def weather (render : Rat → String) (t : CitiesTable)
    (geo : String → Except String GeoResponse)
    (wapi : LatLong → Except String WeatherResponse) (city : String) :
    HandlerOutcome :=
  match fetch_lat_long geo city with
  | .error e => ⟨.error e, t, [.providerCall city]⟩
  | .ok c =>
    match fetch_weather wapi c with
    | .error e => ⟨.error e, t, [.providerCall city, .weatherFetch c]⟩
    | .ok w =>
      ⟨.ok (WeatherDisplay.new render city w), t,
        [.providerCall city, .weatherFetch c]⟩

/-- Table in which "Paris" is already cached at coordinate (1, 1). -/
def parisCachedTable : CitiesTable := ⟨[⟨0, "Paris", 1, 1⟩], 1⟩

/-- The six characters of the string "Basic " that the stats auth check strips. -/
def basicMarker : List Char := ['B', 'a', 's', 'i', 'c', ' ']

/-- Embeds `auth_header.starts_with("Basic ")`. -/
def startsWithBasic : List Char → Bool
  | 'B' :: 'a' :: 's' :: 'i' :: 'c' :: ' ' :: _ => true
  | _ => false

/-- Embeds `auth_header.trim_start_matches("Basic ")`. Rust's
`trim_start_matches` removes the prefix REPEATEDLY, so this strips every
leading occurrence of "Basic ". -/
def trimBasic : List Char → List Char
  | 'B' :: 'a' :: 's' :: 'i' :: 'c' :: ' ' :: rest => trimBasic rest
  | l => l

/-- Value of one character of the RFC 4648 standard base64 alphabet. -/
def b64Val (c : Char) : Option Nat :=
  if 'A' ≤ c ∧ c ≤ 'Z' then some (c.toNat - 65)
  else if 'a' ≤ c ∧ c ≤ 'z' then some (c.toNat - 97 + 26)
  else if '0' ≤ c ∧ c ≤ '9' then some (c.toNat - 48 + 52)
  else if c = '+' then some 62
  else if c = '/' then some 63
  else none

/-- Decode a final base64 chunk of two characters into one byte (the four
trailing bits must be zero, matching the crate's default strictness). -/
def b64Final2 (a b : Char) : Option (List Nat) := do
  let va ← b64Val a
  let vb ← b64Val b
  if vb % 16 = 0 then some [va * 4 + vb / 16] else none

/-- Decode a final base64 chunk of three characters into two bytes. -/
def b64Final3 (a b c : Char) : Option (List Nat) := do
  let va ← b64Val a
  let vb ← b64Val b
  let vc ← b64Val c
  if vc % 4 = 0 then some [va * 4 + vb / 16, (vb % 16) * 16 + vc / 4] else none

/-- Decode a full base64 quad into three bytes. -/
def b64Quad (a b c d : Char) : Option (List Nat) := do
  let va ← b64Val a
  let vb ← b64Val b
  let vc ← b64Val c
  let vd ← b64Val d
  some [va * 4 + vb / 16, (vb % 16) * 16 + vc / 4, (vc % 4) * 64 + vd]

/-- Embeds `base64::decode` (standard alphabet, optional `=` padding on the
final chunk, non-canonical trailing bits rejected). Any invalid character —
including a space — makes the whole decode fail. -/
def b64Decode : List Char → Option (List Nat)
  | [] => some []
  | [a, b] => b64Final2 a b
  | [a, b, '=', '='] => b64Final2 a b
  | [a, b, c] => b64Final3 a b c
  | [a, b, c, '='] => b64Final3 a b c
  | a :: b :: c :: d :: rest => do
    let v ← b64Quad a b c d
    let w ← b64Decode rest
    some (v ++ w)
  | _ => none

/-- UTF-8 bytes of the hardcoded credential pair "forecast:forecast" (pure
ASCII, so they are the character codes). -/
def forecastBytes : List Nat := "forecast:forecast".data.map Char.toNat

/-- The response the `User` extractor builds on rejection. -/
structure HttpResponse where
  status : Nat
  wwwAuthenticate : Option String
  body : String
deriving DecidableEq, Repr

/-- Embeds the hardcoded rejection: 401 plus the Basic challenge header. -/
def rejectResponse : HttpResponse :=
  ⟨401, some "Basic realm=\"Please enter your credentials\"", "Unauthorized"⟩

/-- Embeds `User::from_request_parts` on the (optional) `Authorization`
header value. `none` covers both a missing header and one whose bytes cannot
be read as a string. Rust's `base64::decode(..).unwrap_or_default()` is the
`getD []`; comparing the decoded bytes with `forecastBytes` is equivalent to
the source's `from_utf8(..).unwrap_or("") == "forecast:forecast"`, because the
target is ASCII and UTF-8 decoding is injective on byte strings. -/
def from_request_parts (authHeader : Option String) : Except HttpResponse Unit :=
  match authHeader with
  | none => .error rejectResponse
  | some h =>
    if startsWithBasic h.data then
      if (b64Decode (trimBasic h.data)).getD [] = forecastBytes then .ok ()
      else .error rejectResponse
    else .error rejectResponse

/-- Embeds the `stats` route: the `User` extractor runs first and
short-circuits with the 401 rejection; on success the handler renders
`get_last_cities` (with `getFail` injecting a database failure, which the
handler maps to an `AppErr` like every other route error). -/
def stats (authHeader : Option String) (t : CitiesTable) (getFail : Option String) :
    Except HttpResponse (Except AppErr (List String)) :=
  match from_request_parts authHeader with
  | .error r => .error r
  | .ok _ =>
    match getFail with
    | some e => .ok (.error (.db e))
    | none => .ok (.ok (get_last_cities t))

/-- Modelled from the spec (claim C8's reading): the request "carries HTTP
Basic credentials decoding to the single hardcoded username/password pair",
i.e. the header is exactly "Basic " followed by a base64 encoding of
"forecast:forecast". Stated independently of the source's trimming, for
comparison with `from_request_parts`. -/
def specStatsAccepts (authHeader : Option String) : Prop :=
  ∃ s creds, authHeader = some s ∧ s.data = basicMarker ++ creds
    ∧ b64Decode creds = some forecastBytes

/-- Concatenation of `k` copies of the "Basic " marker. -/
def repeatMarker : Nat → List Char
  | 0 => []
  | k + 1 => basicMarker ++ repeatMarker k

/-- A fresh row inserted for a name that had no row is found by a subsequent
lookup for that name. -/
theorem selectCity_insertCity_self (t : CitiesTable) (name : String) (c : LatLong)
    (h : selectCity t name = none) :
    selectCity (insertCity t name c) name = some c := by
  have hf : t.rows.find? (fun r => r.name == name) = none := by
    cases hfind : t.rows.find? (fun r => r.name == name) with
    | none => rfl
    | some r => unfold selectCity at h; rw [hfind] at h; simp at h
  unfold selectCity insertCity
  simp [List.find?_append, hf, List.find?]

/-- Claim C3: a city already present in the Store is resolved from the stored
row: `get_lat_long` returns the stored coordinate, the trace contains only the
store lookup (no provider call, no insert), and the table is unchanged. -/
theorem resolve_cache_hit (t : CitiesTable) (geo : String → Except String GeoResponse)
    (name : String) (c : LatLong) (h : selectCity t name = some c) :
    get_lat_long t none none geo name = ⟨.ok c, t, [.storeGet name]⟩ := by
  simp [get_lat_long, h]

/-- Witness for `resolve_cache_hit`: a table caching Paris at (1, 2), with a
geocoding endpoint that would fail if it were ever contacted. -/
theorem resolve_cache_hit_witness :
    get_lat_long ⟨[⟨0, "Paris", 1, 2⟩], 1⟩ none none (fun _ => .error "down") "Paris"
      = ⟨.ok ⟨1, 2⟩, ⟨[⟨0, "Paris", 1, 2⟩], 1⟩, [.storeGet "Paris"]⟩ :=
  resolve_cache_hit ⟨[⟨0, "Paris", 1, 2⟩], 1⟩ (fun _ => .error "down") "Paris" ⟨1, 2⟩
    (by decide)

/-- Claim C4: on a Store miss where the geocoding response has at least one
result, `get_lat_long` returns the first result, inserts the row
`(name, coordinate)`, and a subsequent Store lookup for the name finds that
same coordinate. -/
theorem resolve_miss_populates (t : CitiesTable)
    (geo : String → Except String GeoResponse) (name : String) (c : LatLong)
    (rest : List LatLong) (resp : GeoResponse)
    (hmiss : selectCity t name = none) (hgeo : geo name = .ok resp)
    (hres : resp.results = c :: rest) :
    get_lat_long t none none geo name
        = ⟨.ok c, insertCity t name c,
            [.storeGet name, .providerCall name, .storeInsert name c]⟩
      ∧ selectCity (get_lat_long t none none geo name).table name = some c := by
  have h1 : get_lat_long t none none geo name
      = ⟨.ok c, insertCity t name c,
          [.storeGet name, .providerCall name, .storeInsert name c]⟩ := by
    simp [get_lat_long, hmiss, fetch_lat_long, hgeo, hres]
  exact ⟨h1, by rw [h1]; exact selectCity_insertCity_self t name c hmiss⟩

/-- Witness for `resolve_miss_populates`: resolving "Paris" against an empty
table, the provider answering (48.8566, 2.3522) (the spec's example values,
written as exact rationals). -/
theorem resolve_miss_populates_witness :
    get_lat_long CitiesTable.empty none none
        (fun _ => .ok ⟨[⟨mkRat 488566 10000, mkRat 23522 10000⟩]⟩) "Paris"
      = ⟨.ok ⟨mkRat 488566 10000, mkRat 23522 10000⟩,
          insertCity CitiesTable.empty "Paris" ⟨mkRat 488566 10000, mkRat 23522 10000⟩,
          [.storeGet "Paris", .providerCall "Paris",
            .storeInsert "Paris" ⟨mkRat 488566 10000, mkRat 23522 10000⟩]⟩
      ∧ selectCity (get_lat_long CitiesTable.empty none none
          (fun _ => .ok ⟨[⟨mkRat 488566 10000, mkRat 23522 10000⟩]⟩) "Paris").table "Paris"
        = some ⟨mkRat 488566 10000, mkRat 23522 10000⟩ :=
  resolve_miss_populates CitiesTable.empty
    (fun _ => .ok ⟨[⟨mkRat 488566 10000, mkRat 23522 10000⟩]⟩) "Paris"
    ⟨mkRat 488566 10000, mkRat 23522 10000⟩ []
    ⟨[⟨mkRat 488566 10000, mkRat 23522 10000⟩]⟩ (by decide) rfl rfl

/-- Claim C5: on a Store miss where the geocoding call succeeds with zero
results, `get_lat_long` fails with the "No results found" error, performs no
insert (the trace has no `storeInsert` and the table is unchanged), and a
subsequent lookup for the name still reports not-present. -/
theorem resolve_empty_results (t : CitiesTable)
    (geo : String → Except String GeoResponse) (name : String)
    (hmiss : selectCity t name = none) (hgeo : geo name = .ok ⟨[]⟩) :
    get_lat_long t none none geo name
        = ⟨.error .noResults, t, [.storeGet name, .providerCall name]⟩
      ∧ selectCity (get_lat_long t none none geo name).table name = none := by
  have h1 : get_lat_long t none none geo name
      = ⟨.error .noResults, t, [.storeGet name, .providerCall name]⟩ := by
    simp [get_lat_long, hmiss, fetch_lat_long, hgeo]
  exact ⟨h1, by rw [h1]; exact hmiss⟩

/-- Witness for `resolve_empty_results`: the spec's "Nowhereville" example. -/
theorem resolve_empty_results_witness :
    get_lat_long CitiesTable.empty none none (fun _ => .ok ⟨[]⟩) "Nowhereville"
        = ⟨.error .noResults, CitiesTable.empty,
            [.storeGet "Nowhereville", .providerCall "Nowhereville"]⟩
      ∧ selectCity (get_lat_long CitiesTable.empty none none
          (fun _ => .ok ⟨[]⟩) "Nowhereville").table "Nowhereville" = none :=
  resolve_empty_results CitiesTable.empty (fun _ => .ok ⟨[]⟩) "Nowhereville"
    (by decide) rfl

/-- Claim C6: if the initial Store lookup itself fails, `get_lat_long`
propagates that very error, the trace contains only the store lookup (no
provider call, no insert attempt), and the table is unchanged. -/
theorem resolve_store_lookup_failure (t : CitiesTable) (insFail : Option String)
    (geo : String → Except String GeoResponse) (name e : String) :
    get_lat_long t (some e) insFail geo name = ⟨.error (.db e), t, [.storeGet name]⟩ := rfl

/-- Claim C2 counterexample: with the insert failing after a successful
provider lookup of (1, 2) for "X", `get_lat_long` returns the propagated
database error, not the resolved coordinate — the `?` on the INSERT statement
makes the write failure fatal to the caller. -/
theorem resolve_insert_failure_counterexample :
    (get_lat_long CitiesTable.empty none (some "insert failed")
        (fun _ => .ok ⟨[⟨1, 2⟩]⟩) "X").result = .error (.db "insert failed")
      ∧ (get_lat_long CitiesTable.empty none (some "insert failed")
        (fun _ => .ok ⟨[⟨1, 2⟩]⟩) "X").result ≠ .ok ⟨1, 2⟩ := by decide

/-- Claim C2 amended: on a Store miss, if the provider lookup succeeds but the
subsequent insert fails, `get_lat_long` returns the insert's database error to
the caller (discarding the resolved coordinate), and the table is unchanged. -/
theorem resolve_insert_failure_propagates (t : CitiesTable) (e : String)
    (geo : String → Except String GeoResponse) (name : String) (c : LatLong)
    (rest : List LatLong) (resp : GeoResponse)
    (hmiss : selectCity t name = none) (hgeo : geo name = .ok resp)
    (hres : resp.results = c :: rest) :
    get_lat_long t none (some e) geo name
      = ⟨.error (.db e), t,
          [.storeGet name, .providerCall name, .storeInsert name c]⟩ := by
  simp [get_lat_long, hmiss, fetch_lat_long, hgeo, hres]

theorem insertDescById_of_lt (r : CityRow) (l : List CityRow)
    (h : ∀ x ∈ l, r.id < x.id) : insertDescById r l = l ++ [r] := by
  induction l with
  | nil => rfl
  | cons x xs ih =>
    have hx : ¬ x.id ≤ r.id := by
      have := h x (by simp)
      omega
    simp only [insertDescById, if_neg hx, List.cons_append, List.cons.injEq, true_and]
    exact ih (fun y hy => h y (by simp [hy]))

theorem sortByIdDesc_of_ascending (l : List CityRow)
    (h : l.Pairwise (fun a b => a.id < b.id)) : sortByIdDesc l = l.reverse := by
  induction l with
  | nil => rfl
  | cons r xs ih =>
    have h1 := (List.pairwise_cons.mp h).1
    have h2 := (List.pairwise_cons.mp h).2
    show insertDescById r (sortByIdDesc xs) = (r :: xs).reverse
    rw [ih h2, insertDescById_of_lt r xs.reverse
      (fun x hx => h1 x (List.mem_reverse.mp hx)), List.reverse_cons]

/-- Claim C7: `get_last_cities` returns up to 10 names; on any table whose row
order carries strictly ascending ids (any table built by `insertCity`), it
returns the names in reverse insertion order (newest first), truncated to 10;
and concretely, after resolving "A" then "B" then "C" from empty, the first
two returned entries are ["C", "B"]. -/
theorem get_last_cities_spec :
    (∀ t : CitiesTable, TableWf t →
      get_last_cities t = ((t.rows.reverse).map (fun r => r.name)).take 10)
      ∧ (∀ t : CitiesTable, (get_last_cities t).length ≤ 10)
      ∧ abcTable.rows.map (fun r => r.name) = ["A", "B", "C"]
      ∧ (get_last_cities abcTable).take 2 = ["C", "B"] := by
  refine ⟨fun t h => ?_, fun t => ?_, by decide, by decide⟩
  · unfold get_last_cities
    rw [sortByIdDesc_of_ascending t.rows h, List.map_take]
  · unfold get_last_cities
    simp only [List.length_map, List.length_take]
    omega

/-- Witness applying `get_last_cities_spec` at the concrete three-city table
(its well-formedness hypothesis discharged by evaluation). -/
theorem get_last_cities_spec_witness :
    get_last_cities abcTable
      = ((abcTable.rows.reverse).map (fun r => r.name)).take 10 :=
  get_last_cities_spec.1 abcTable (by unfold TableWf; decide)

/-- Claim C1 evaluated at the failing input: with "Paris" cached at (1, 1) in
the Store but the provider answering (2, 2), the `weather` handler's trace is
exactly a provider call followed by the weather fetch at the provider's
coordinate (2, 2) — no `storeGet`, no `storeInsert` — and the table is
unchanged: the handler never consults the Store and never calls
`get_lat_long`, contradicting the claimed cache-aside flow. -/
theorem weather_bypasses_store :
    selectCity parisCachedTable "Paris" = some ⟨1, 1⟩
      ∧ weather (fun _ => "t") parisCachedTable (fun _ => .ok ⟨[⟨2, 2⟩]⟩)
          (fun c => .ok ⟨c.latitude, c.longitude, "UTC", ⟨[], []⟩⟩) "Paris"
        = ⟨.ok ⟨"Paris", []⟩, parisCachedTable,
            [.providerCall "Paris", .weatherFetch ⟨2, 2⟩]⟩ :=
  ⟨by decide, rfl⟩

theorem zip_get? {α β : Type} (l₁ : List α) (l₂ : List β) (i : Nat) :
    (l₁.zip l₂)[i]?
      = l₁[i]?.bind (fun a => l₂[i]?.map (fun b => (a, b))) := by
  induction l₁ generalizing l₂ i with
  | nil => simp
  | cons a as ih =>
    cases l₂ with
    | nil => simp
    | cons b bs =>
      cases i with
      | zero => simp
      | succ n => simpa using ih bs n

/-- Claim C10: `WeatherDisplay::new` keeps the city verbatim, produces exactly
`min (length time) (length temperature_2m)` forecasts (mismatched lengths are
silently truncated to the shorter — never an error), and the i-th forecast
pairs `time[i]` with the rendering of `temperature_2m[i]`. -/
theorem weatherDisplay_new_spec (render : Rat → String) (city : String)
    (resp : WeatherResponse) :
    (WeatherDisplay.new render city resp).city = city
      ∧ (WeatherDisplay.new render city resp).forecasts.length
          = min resp.hourly.time.length resp.hourly.temperature_2m.length
      ∧ ∀ i : Nat, (WeatherDisplay.new render city resp).forecasts[i]?
          = resp.hourly.time[i]?.bind
              (fun d => resp.hourly.temperature_2m[i]?.map
                (fun temp => ⟨d, render temp⟩)) := by
  refine ⟨rfl, ?_, fun i => ?_⟩
  · simp [WeatherDisplay.new]
  · show ((resp.hourly.time.zip resp.hourly.temperature_2m).map
        (fun p => Forecast.mk p.1 (render p.2)))[i]? = _
    rw [List.getElem?_map, zip_get? resp.hourly.time resp.hourly.temperature_2m i]
    cases ht : resp.hourly.time[i]? with
    | none => rfl
    | some d =>
      cases htemp : resp.hourly.temperature_2m[i]? with
      | none => rfl
      | some temp => rfl

/-- Witness for `weatherDisplay_new_spec` at a response with three timestamps
but only two temperatures: two forecasts come out. -/
theorem weatherDisplay_new_spec_witness :
    ((WeatherDisplay.new (fun q => if q = 7 then "7" else "8") "Oslo"
        ⟨1, 2, "UTC", ⟨["t0", "t1", "t2"], [7, 8]⟩⟩).forecasts.length = min 3 2)
      ∧ (WeatherDisplay.new (fun q => if q = 7 then "7" else "8") "Oslo"
          ⟨1, 2, "UTC", ⟨["t0", "t1", "t2"], [7, 8]⟩⟩).forecasts[1]?
        = some ⟨"t1", "8"⟩ := by
  have h := weatherDisplay_new_spec (fun q => if q = 7 then "7" else "8") "Oslo"
    ⟨1, 2, "UTC", ⟨["t0", "t1", "t2"], [7, 8]⟩⟩
  exact ⟨h.2.1, by rw [h.2.2 1]; decide⟩

/-- Witness for `resolve_insert_failure_propagates`. -/
theorem resolve_insert_failure_propagates_witness :
    get_lat_long CitiesTable.empty none (some "boom")
        (fun _ => .ok ⟨[⟨1, 2⟩]⟩) "X"
      = ⟨.error (.db "boom"), CitiesTable.empty,
          [.storeGet "X", .providerCall "X", .storeInsert "X" ⟨1, 2⟩]⟩ :=
  resolve_insert_failure_propagates CitiesTable.empty "boom"
    (fun _ => .ok ⟨[⟨1, 2⟩]⟩) "X" ⟨1, 2⟩ [] ⟨[⟨1, 2⟩]⟩ (by decide) rfl rfl

theorem startsWithBasic_iff (l : List Char) :
    startsWithBasic l = true ↔ ∃ rest, l = basicMarker ++ rest := by
  constructor
  · intro h
    rw [startsWithBasic.eq_def] at h
    split at h
    · next rest => exact ⟨rest, rfl⟩
    · exact absurd h (by simp)
  · rintro ⟨rest, rfl⟩
    rfl

theorem trimBasic_marker (l : List Char) :
    trimBasic (basicMarker ++ l) = trimBasic l := rfl

theorem trimBasic_of_not_starts (l : List Char) (h : startsWithBasic l = false) :
    trimBasic l = l := by
  rw [trimBasic.eq_def]
  split
  · next rest => simp [startsWithBasic] at h
  · rfl

theorem trimBasic_repeat (k : Nat) (l : List Char) :
    trimBasic (repeatMarker k ++ l) = trimBasic l := by
  induction k with
  | zero => rfl
  | succ n ih =>
    show trimBasic (basicMarker ++ repeatMarker n ++ l) = trimBasic l
    rw [List.append_assoc, trimBasic_marker, ih]

theorem trimBasic_decomp_aux : ∀ (n : Nat) (l : List Char), l.length ≤ n →
    ∃ k : Nat, l = repeatMarker k ++ trimBasic l
      ∧ startsWithBasic (trimBasic l) = false
      ∧ (startsWithBasic l = true → 0 < k) := by
  intro n
  induction n with
  | zero =>
    intro l hl
    have hnil : l = [] := List.length_eq_zero.mp (Nat.le_zero.mp hl)
    subst hnil
    exact ⟨0, rfl, rfl, fun h => absurd h (by decide)⟩
  | succ n ih =>
    intro l hl
    by_cases hs : startsWithBasic l = true
    · obtain ⟨rest, rfl⟩ := (startsWithBasic_iff l).mp hs
      have hrest : rest.length ≤ n := by
        rw [List.length_append] at hl
        simp only [basicMarker, List.length_cons, List.length_nil] at hl
        omega
      obtain ⟨k, h1, h2, _⟩ := ih rest hrest
      refine ⟨k + 1, ?_, ?_, fun _ => Nat.succ_pos k⟩
      · rw [trimBasic_marker]
        calc basicMarker ++ rest
            = basicMarker ++ (repeatMarker k ++ trimBasic rest) := by rw [← h1]
          _ = repeatMarker (k + 1) ++ trimBasic rest := by
              simp [repeatMarker, List.append_assoc]
      · rw [trimBasic_marker]
        exact h2
    · have hs' : startsWithBasic l = false := by
        revert hs
        cases startsWithBasic l <;> simp
      refine ⟨0, ?_, ?_, fun h => absurd h hs⟩
      · rw [trimBasic_of_not_starts l hs']
        rfl
      · rw [trimBasic_of_not_starts l hs']
        exact hs'

theorem trimBasic_decomp (l : List Char) :
    ∃ k : Nat, l = repeatMarker k ++ trimBasic l
      ∧ startsWithBasic (trimBasic l) = false
      ∧ (startsWithBasic l = true → 0 < k) :=
  trimBasic_decomp_aux l.length l le_rfl

theorem b64_getD_eq_iff (creds : List Char) :
    (b64Decode creds).getD [] = forecastBytes
      ↔ b64Decode creds = some forecastBytes := by
  cases h : b64Decode creds with
  | none =>
    simp only [Option.getD_none]
    constructor
    · intro h1
      exact absurd h1.symm (by decide)
    · intro h1
      exact Option.noConfusion h1
  | some v => simp

theorem from_request_parts_total (authHeader : Option String) :
    from_request_parts authHeader = .ok ()
      ∨ from_request_parts authHeader = .error rejectResponse := by
  cases authHeader with
  | none => exact Or.inr rfl
  | some s =>
    by_cases h1 : startsWithBasic s.data = true
    · by_cases h2 : (b64Decode (trimBasic s.data)).getD [] = forecastBytes
      · exact Or.inl (by simp [from_request_parts, h1, h2])
      · exact Or.inr (by simp [from_request_parts, h1, h2])
    · exact Or.inr (by simp [from_request_parts, h1])

theorem stats_ok_iff (authHeader : Option String) (t : CitiesTable) :
    stats authHeader t none = .ok (.ok (get_last_cities t))
      ↔ from_request_parts authHeader = .ok () := by
  unfold stats
  cases h : from_request_parts authHeader with
  | error r =>
    simp only []
    constructor
    · intro h1
      exact Except.noConfusion h1
    · intro h1
      exact Except.noConfusion h1
  | ok u =>
    cases u
    simp

/-- Claim C9: for every Authorization header value — missing, non-Basic,
invalid base64 (which `unwrap_or_default` turns into the empty byte string),
or bytes that are not the credential pair — the extractor is a total function
that either accepts or returns exactly the 401 rejection with the
`WWW-Authenticate: Basic` challenge; no input panics. -/
theorem stats_auth_no_panic (authHeader : Option String) :
    from_request_parts authHeader = .ok ()
      ∨ (from_request_parts authHeader = .error rejectResponse
          ∧ rejectResponse.status = 401
          ∧ rejectResponse.wwwAuthenticate
              = some "Basic realm=\"Please enter your credentials\"") := by
  rcases from_request_parts_total authHeader with h | h
  · exact Or.inl h
  · exact Or.inr ⟨h, rfl, rfl⟩

/-- Claim C8 counterexample: the header
`Basic Basic Zm9yZWNhc3Q6Zm9yZWNhc3Q=` is accepted by the code (Rust's
`trim_start_matches` strips BOTH leading "Basic " occurrences), yet it does
not carry Basic credentials decoding to the pair — its credential part
`Basic Zm9yZWNhc3Q6Zm9yZWNhc3Q=` is not valid base64 (it contains a space).
So "succeeds iff the carried credentials decode to the pair" is false. -/
theorem stats_route_counterexample :
    stats (some "Basic Basic Zm9yZWNhc3Q6Zm9yZWNhc3Q=") CitiesTable.empty none
        = .ok (.ok [])
      ∧ ¬ specStatsAccepts (some "Basic Basic Zm9yZWNhc3Q6Zm9yZWNhc3Q=") := by
  constructor
  · decide
  · rintro ⟨s, creds, hs, hdata, hdec⟩
    injection hs with hs'
    subst hs'
    have h1 : ("Basic Basic Zm9yZWNhc3Q6Zm9yZWNhc3Q=" : String).data
        = basicMarker ++ ("Basic Zm9yZWNhc3Q6Zm9yZWNhc3Q=" : String).data := by decide
    have h2 : ("Basic Zm9yZWNhc3Q6Zm9yZWNhc3Q=" : String).data = creds :=
      List.append_cancel_left (h1.symm.trans hdata)
    rw [← h2] at hdec
    exact absurd hdec (by decide)

/-- Claim C8 amended: a `GET /stats` request (with a healthy store) succeeds
and renders the recent-cities list iff its Authorization header is one or MORE
repetitions of "Basic " followed by a base64 encoding of the hardcoded pair
"forecast:forecast" (the source's `trim_start_matches` strips the prefix
repeatedly); every other request is rejected with the single 401
`WWW-Authenticate: Basic` challenge response. -/
theorem stats_route_amended (authHeader : Option String) (t : CitiesTable) :
    (stats authHeader t none = .ok (.ok (get_last_cities t))
      ↔ ∃ (s : String) (k : Nat) (creds : List Char),
          authHeader = some s
          ∧ s.data = repeatMarker (k + 1) ++ creds
          ∧ startsWithBasic creds = false
          ∧ b64Decode creds = some forecastBytes)
      ∧ (stats authHeader t none = .ok (.ok (get_last_cities t))
          ∨ stats authHeader t none = .error rejectResponse) := by
  constructor
  · rw [stats_ok_iff]
    constructor
    · intro fr
      cases authHeader with
      | none => exact absurd fr (by simp [from_request_parts])
      | some s =>
        rw [from_request_parts] at fr
        by_cases h1 : startsWithBasic s.data = true
        · rw [if_pos h1] at fr
          by_cases h2 : (b64Decode (trimBasic s.data)).getD [] = forecastBytes
          · obtain ⟨k, hk, hns, hpos⟩ := trimBasic_decomp s.data
            obtain ⟨k', rfl⟩ : ∃ k', k = k' + 1 := ⟨k - 1, by have := hpos h1; omega⟩
            exact ⟨s, k', trimBasic s.data, rfl, hk, hns, (b64_getD_eq_iff _).mp h2⟩
          · rw [if_neg h2] at fr
            exact Except.noConfusion fr
        · rw [if_neg h1] at fr
          exact Except.noConfusion fr
    · rintro ⟨s, k, creds, rfl, hdata, hns, hdec⟩
      have hstart : startsWithBasic s.data = true := by
        rw [hdata, show repeatMarker (k + 1) ++ creds
            = basicMarker ++ (repeatMarker k ++ creds) by
          simp [repeatMarker, List.append_assoc]]
        exact (startsWithBasic_iff _).mpr ⟨_, rfl⟩
      have htrim : trimBasic s.data = creds := by
        rw [hdata, trimBasic_repeat, trimBasic_of_not_starts _ hns]
      rw [from_request_parts, if_pos hstart, htrim, hdec]
      simp
  · rcases from_request_parts_total authHeader with h | h
    · exact Or.inl ((stats_ok_iff authHeader t).mpr h)
    · refine Or.inr ?_
      unfold stats
      rw [h]

/-- Witness for `stats_route_amended`: the canonical well-formed header is
accepted and the recent-cities list is rendered. -/
theorem stats_route_amended_witness :
    stats (some "Basic Zm9yZWNhc3Q6Zm9yZWNhc3Q=") CitiesTable.empty none
      = .ok (.ok []) :=
  (stats_route_amended (some "Basic Zm9yZWNhc3Q6Zm9yZWNhc3Q=")
      CitiesTable.empty).1.mpr
    ⟨"Basic Zm9yZWNhc3Q6Zm9yZWNhc3Q=", 0,
      ("Zm9yZWNhc3Q6Zm9yZWNhc3Q=" : String).data,
      rfl, by decide, by decide, by decide⟩
